import Mathlib

/-!
# Verification of request-value.lv2 (`src/request_value.c`)

A shallow embedding of the LV2 example plugin `request_value.c`.

Modelling conventions:

* LV2 URIDs (`LV2_URID`, `uint32_t`) are modelled as `Nat`.
* The host's `urid:map` naming service is a function `String → Nat`.
* An `LV2_Atom` is a type tag together with its raw body; an atom's body,
  viewed as bytes, is modelled as a `Nat` (the little-endian value of the
  payload).  `bool b = *((bool*)(val + 1))` in the C code reads the first
  byte of the body, hence `body % 256 ≠ 0` below.
* `sample_cnt` is a `uint64_t`; its update wraps modulo `2 ^ 64`.
* `sample_rate` is a C `double`; it is modelled exactly as a rational.
  The guard `self->sample_cnt > 2 * self->sample_rate` converts the counter
  to `double`; that conversion is exact for counters below `2 ^ 53`, which
  covers every scenario considered here, so the guard is modelled as the
  exact rational comparison.
* Logging (`lv2_log_error` / `lv2_log_note`) has no effect on plugin state;
  the distinct log messages of `parse_property` are modelled as the
  classified outcomes of the decoder.
* Side effects towards the host (calls through `request_value->request`)
  are modelled as an explicit trace of `RequestCall` records returned by
  the per-cycle function.
-/

namespace ReqValLv2

/-! ## URI constants (string literals from the C source) -/

def REQVAL_URI : String := "http://gareus.org/oss/lv2/request_value"

def LV2_DIALOGMESSAGE_URI : String := "http://ardour.org/lv2/dialog_message"

def LV2_ATOM__Blank : String := "http://lv2plug.in/ns/ext/atom#Blank"

def LV2_ATOM__Object : String := "http://lv2plug.in/ns/ext/atom#Object"

def LV2_ATOM__URID : String := "http://lv2plug.in/ns/ext/atom#URID"

def LV2_ATOM__Float : String := "http://lv2plug.in/ns/ext/atom#Float"

def LV2_ATOM__Bool : String := "http://lv2plug.in/ns/ext/atom#Bool"

def LV2_PATCH__Set : String := "http://lv2plug.in/ns/ext/patch#Set"

def LV2_PATCH__property : String := "http://lv2plug.in/ns/ext/patch#property"

def LV2_PATCH__value : String := "http://lv2plug.in/ns/ext/patch#value"

def LV2_URID__map : String := "http://lv2plug.in/ns/ext/urid#map"

def LV2_LOG__log : String := "http://lv2plug.in/ns/ext/log#log"

def LV2_UI__requestValue : String := "http://lv2plug.in/ns/extensions/ui#requestValue"

/-! ## Data model -/

/-- An `LV2_Atom`: a type URID plus the raw body (payload bytes, as the
little-endian natural number they denote). -/
structure Atom where
  atype : Nat
  body  : Nat
  deriving DecidableEq, Repr

/-- The body of an `LV2_Atom_Object`: object-type URID `otype` and the
properties, in wire order, as (key URID, value atom) pairs.
(The `id` field and per-property `context` of the wire format are never
read by this plugin and are omitted.) -/
structure AtomObject where
  otype   : Nat
  members : List (Nat × Atom)
  deriving DecidableEq, Repr

/-- One `LV2_Atom_Event` of the control sequence: the type URID of its
body atom, and the body viewed as an object (`otype` + members).  The
object view `eobj` is only ever read by the code when
`etype = uris.atom_Object`.  (The event timestamp is never read by this
plugin and is omitted; the sequence order is the storage order.) -/
structure Event where
  etype : Nat
  eobj  : AtomObject
  deriving DecidableEq, Repr

/-- The URID table of the plugin, `ReqValURIs` in the C source. -/
structure ReqValURIs where
  atom_Blank     : Nat
  atom_Object    : Nat
  atom_URID      : Nat
  atom_Float     : Nat
  atom_Bool      : Nat
  patch_Set      : Nat
  patch_property : Nat
  patch_value    : Nat
  m_bool_test    : Nat
  m_ack_test     : Nat
  deriving DecidableEq, Repr

/-- `map_uris` (lines 91-104): resolve the fixed set of URIs through the
host's naming service `m`. -/
def map_uris (m : String → Nat) : ReqValURIs where
  atom_Blank     := m LV2_ATOM__Blank
  atom_Object    := m LV2_ATOM__Object
  atom_URID      := m LV2_ATOM__URID
  atom_Float     := m LV2_ATOM__Float
  atom_Bool      := m LV2_ATOM__Bool
  patch_Set      := m LV2_PATCH__Set
  patch_property := m LV2_PATCH__property
  patch_value    := m LV2_PATCH__value
  m_bool_test    := m (REQVAL_URI ++ "#booltest")
  m_ack_test     := m (REQVAL_URI ++ "#acktest")

/-- `non_free` (lines 57-62): the release callback handed to the host for
the dialog message.  The message is statically allocated, so the body is
compiled out (`#if 0`) and the function frees nothing.  The effect of a
release callback is modelled as the list of messages it frees; `non_free`
frees none. -/
def non_free (_msg : String) : List String := []

/-- The `LV2_Dialog_Message` record (lines 36-42): release callback,
message text (a C pointer, possibly NULL) and the delivery-mode flag. -/
structure LV2_Dialog_Message where
  free_msg        : String → List String
  msg             : Option String
  requires_return : Bool

/-- The mutable per-instance state of `ReqVal` that the `run` cycle reads
and writes: the elapsed-sample counter, the request latch, and the dialog
message record (mutated when the request fires). -/
structure State where
  sample_cnt     : Nat
  request_sent   : Bool
  dialog_message : LV2_Dialog_Message

/-- One call through `self->request_value->request(...)` (line 264),
recording its arguments: the property URID, the type URID, and the
feature list — a single feature whose URI is `LV2_DIALOGMESSAGE_URI` and
whose data is the dialog-message record as it stands at call time. -/
structure RequestCall where
  property : Nat
  ptype    : Nat
  features : List (String × LV2_Dialog_Message)

/-! ## Identifier-table lookup -/

/-- `lv2_atom_object_get (obj, key, &ptr, 0)`: scan the object's
properties in wire order and return the value of the first member whose
key equals `key`, if any. -/
def lv2_atom_object_get (obj : AtomObject) (key : Nat) : Option Atom :=
  match obj.members.find? (fun p => p.1 == key) with
  | some p => some p.2
  | none   => none

/-! ## Property-set decoder -/

/-- The classified failures of `parse_property`, one per distinct
`lv2_log_error` message (lines 195, 198, 206, 222, 228). -/
inductive ParseError where
  | NoBody
  | NonIdentifierProperty
  | NoValue
  | TypeMismatch
  | UnknownProperty
  deriving DecidableEq, Repr

/-- Outcome of `parse_property`: success carrying the decoded boolean
(the value logged at line 226), or a classified failure. -/
inductive ParseResult where
  | ok  (b : Bool)
  | err (e : ParseError)
  deriving DecidableEq, Repr

/-- `parse_property` (lines 182-232).  Fetch the `patch:property` member;
fail `NoBody` if absent, `NonIdentifierProperty` if its type is not
`atom:URID`.  Fetch the `patch:value` member; fail `NoValue` if absent.
If the property URID is `m_bool_test`, require the value's type to be
`atom:Bool` (else `TypeMismatch`) and decode the boolean
(`*((bool*)(val + 1))` reads the body's first byte); any other property
URID fails `UnknownProperty`.  The C function only logs and returns a
`bool`; the classification records which log message is emitted. -/
def parse_property (uris : ReqValURIs) (obj : AtomObject) : ParseResult :=
  match lv2_atom_object_get obj uris.patch_property with
  | none => .err .NoBody
  | some property =>
    if property.atype ≠ uris.atom_URID then
      .err .NonIdentifierProperty
    else
      match lv2_atom_object_get obj uris.patch_value with
      | none => .err .NoValue
      | some val =>
        if property.body = uris.m_bool_test then
          if val.atype ≠ uris.atom_Bool then
            .err .TypeMismatch
          else
            .ok (decide (val.body % 256 ≠ 0))
        else
          .err .UnknownProperty

/-! ## Control-stream dispatcher -/

/-- The event loop of `run` (lines 249-258): walk the sequence in storage
order; skip any event whose body type is not `atom:Object`; of the object
events, hand to `parse_property` exactly those whose `otype` is
`patch:Set`.  Returns the objects handed to the decoder, in order. -/
def runEvents (uris : ReqValURIs) : List Event → List AtomObject
  | [] => []
  | ev :: rest =>
    if ev.etype ≠ uris.atom_Object then
      runEvents uris rest
    else if ev.eobj.otype = uris.patch_Set then
      ev.eobj :: runEvents uris rest
    else
      runEvents uris rest

/-! ## Instantiation -/

/-- One entry of the host's feature array: the feature URI and whether its
`data` pointer is non-NULL. -/
structure Feature where
  uri     : String
  nonNull : Bool
  deriving DecidableEq, Repr

/-- The feature-scanning loop of `instantiate` (lines 116-124): each of
`self->log`, `map`, `self->request_value` starts NULL and is overwritten
by the `data` of every feature matching its URI, so after the loop it is
non-NULL iff the last matching feature carried non-NULL data. -/
def featureData (features : List Feature) (uri : String) : Bool :=
  features.foldl (fun acc f => if f.uri = uri then f.nonNull else acc) false

/-- The fields of a successfully instantiated `ReqVal` that later claims
read: whether a host log sink was found (`self->log`; when absent the
logger falls back to `printf`/console), the sample rate, and the initial
mutable state. -/
structure ReqVal where
  log_present : Bool
  sample_rate : ℚ
  st          : State

/-- `instantiate` (lines 106-158).  Scan the features; if no
`ui:requestValue` capability was found return NULL, likewise if no
`urid:map`; otherwise build the instance: counter 0, request latch false,
dialog message `{ msg = NULL, requires_return = true, free_msg = non_free }`.
The log feature is optional (the logger falls back to console output). -/
def instantiate (rate : ℚ) (features : List Feature) : Option ReqVal :=
  let map := featureData features LV2_URID__map
  let log := featureData features LV2_LOG__log
  let request_value := featureData features LV2_UI__requestValue
  if ¬ request_value then
    none
  else if ¬ map then
    none
  else
    some { log_present := log
           sample_rate := rate
           st := { sample_cnt := 0
                   request_sent := false
                   dialog_message :=
                     { free_msg := non_free, msg := none, requires_return := true } } }

/-! ## The run cycle -/

/-- The per-cycle inputs of `run`: the frame count `n_samples`, the
control port (`NULL` or a sequence of events), and the audio ports.
`aliased` models pointer equality `self->p_out == self->p_in`; audio
samples are modelled by their 32-bit patterns (`Nat`). -/
structure CycleInput where
  n_samples : Nat
  control   : Option (List Event)
  p_in      : List Nat
  p_out     : List Nat
  aliased   : Bool
  deriving DecidableEq, Repr

/-- Result of one `run` call: the state after the cycle, the contents of
the output buffer, the objects handed to the decoder, and the request
calls issued (as a trace). -/
structure CycleResult where
  state   : State
  out     : List Nat
  handed  : List AtomObject
  requests : List RequestCall

/-- `run` (lines 234-268).  First the audio pass-through: if the output
buffer is distinct storage, `memcpy` the first `n_samples` samples from
input (samples past `n_samples` are untouched); if aliased, no write.
If the control port is NULL, return — skipping event processing, the
request check AND the counter increment.  Otherwise dispatch the events,
then, if the request was never sent and `sample_cnt > 2 * sample_rate`,
latch `request_sent`, set the dialog message to the static text
`"FOO BAR!"` with `requires_return = false`, and call the host's request
capability with `m_bool_test`, `atom_Bool` and the feature list
`[dialog_feature]`.  Finally `sample_cnt += n_samples` (64-bit wrap). -/
def run (sr : ℚ) (uris : ReqValURIs) (s : State) (c : CycleInput) : CycleResult :=
  let out := if c.aliased then c.p_out else c.p_in.take c.n_samples ++ c.p_out.drop c.n_samples
  match c.control with
  | none => { state := s, out := out, handed := [], requests := [] }
  | some evs =>
    let handed := runEvents uris evs
    if ¬ s.request_sent ∧ 2 * sr < (s.sample_cnt : ℚ) then
      let dm : LV2_Dialog_Message :=
        { free_msg := s.dialog_message.free_msg
          msg := some "FOO BAR!"
          requires_return := false }
      { state := { sample_cnt := (s.sample_cnt + c.n_samples) % 2 ^ 64
                   request_sent := true
                   dialog_message := dm }
        out := out
        handed := handed
        requests := [{ property := uris.m_bool_test
                       ptype := uris.atom_Bool
                       features := [(LV2_DIALOGMESSAGE_URI, dm)] }] }
    else
      { state := { s with sample_cnt := (s.sample_cnt + c.n_samples) % 2 ^ 64 }
        out := out
        handed := handed
        requests := [] }

/-- Iterate `run` over a list of cycles, collecting the per-cycle request
traces. -/
def runCycles (sr : ℚ) (uris : ReqValURIs) : State → List CycleInput → State × List (List RequestCall)
  | s, [] => (s, [])
  | s, c :: cs =>
    let r := run sr uris s c
    let rest := runCycles sr uris r.state cs
    (rest.1, r.requests :: rest.2)

/-- Total number of request calls issued over a list of cycles. -/
def requestTotal (sr : ℚ) (uris : ReqValURIs) (s : State) (cs : List CycleInput) : Nat :=
  ((runCycles sr uris s cs).2.map List.length).sum

/-! ## Concrete fixtures used by witnesses and counterexamples -/

/-- A concrete URID table with ten pairwise distinct identifiers, as any
injective naming service would produce. -/
def uris0 : ReqValURIs := ⟨1, 2, 3, 4, 5, 6, 7, 8, 9, 10⟩

/-- The state of a fresh instance, as `instantiate` builds it. -/
def initState : State where
  sample_cnt := 0
  request_sent := false
  dialog_message := { free_msg := non_free, msg := none, requires_return := true }

/-- A cycle of `n` frames with a connected but empty control sequence and
aliased audio buffers. -/
def mkCycle (n : Nat) : CycleInput where
  n_samples := n
  control := some []
  p_in := []
  p_out := []
  aliased := true

/-- A cycle of 5 frames whose control port is NULL. -/
def noCtrlCycle : CycleInput where
  n_samples := 5
  control := none
  p_in := []
  p_out := []
  aliased := true

/-- A host feature list carrying `urid:map` and `ui:requestValue` (both
with valid data) but no log sink. -/
def fsBoth : List Feature :=
  [⟨LV2_URID__map, true⟩, ⟨LV2_UI__requestValue, true⟩]

/-- A host feature list missing `urid:map`. -/
def fsNoMap : List Feature :=
  [⟨LV2_LOG__log, true⟩, ⟨LV2_UI__requestValue, true⟩]

/-- A host feature list missing `ui:requestValue`. -/
def fsNoReq : List Feature :=
  [⟨LV2_URID__map, true⟩, ⟨LV2_LOG__log, true⟩]

/-- The instance `instantiate` builds from `fsBoth` at rate 48000. -/
def rv0 : ReqVal where
  log_present := false
  sample_rate := 48000
  st := initState

/-- A well-formed set object for `uris0`: property member (key 7) is a
URID atom (type 3) carrying `m_bool_test` (9); value member (key 8) is a
Bool atom (type 5) with body 1 (true). -/
def objOkTrue : AtomObject := ⟨6, [(7, ⟨3, 9⟩), (8, ⟨5, 1⟩)]⟩

/-- As `objOkTrue` but the Bool body is 0 (false). -/
def objOkFalse : AtomObject := ⟨6, [(7, ⟨3, 9⟩), (8, ⟨5, 0⟩)]⟩

/-- A set object with no `patch:property` member. -/
def objNoProp : AtomObject := ⟨6, [(8, ⟨5, 1⟩)]⟩

/-- A set object whose property member is typed `atom:Float` (4), not
`atom:URID`. -/
def objNonUrid : AtomObject := ⟨6, [(7, ⟨4, 9⟩), (8, ⟨5, 1⟩)]⟩

/-- A set object with no `patch:value` member. -/
def objNoValue : AtomObject := ⟨6, [(7, ⟨3, 9⟩)]⟩

/-- A set object naming `m_bool_test` whose value is typed `atom:Float`
(4), not `atom:Bool`. -/
def objBadType : AtomObject := ⟨6, [(7, ⟨3, 9⟩), (8, ⟨4, 1⟩)]⟩

/-- A set object naming the unrecognized property `m_ack_test` (10). -/
def objUnknown : AtomObject := ⟨6, [(7, ⟨3, 10⟩), (8, ⟨5, 1⟩)]⟩

/-! ## Helper lemmas -/

/-- Once the request latch is set, a cycle issues no request and keeps
the latch set. -/
theorem run_of_sent (sr : ℚ) (uris : ReqValURIs) (s : State) (c : CycleInput)
    (h : s.request_sent = true) :
    (run sr uris s c).state.request_sent = true ∧ (run sr uris s c).requests = [] := by
  unfold run
  cases hc : c.control with
  | none => simp [h]
  | some evs => simp [h]

/-- Once the request latch is set, no later cycle issues any request. -/
theorem runCycles_of_sent (sr : ℚ) (uris : ReqValURIs) (cs : List CycleInput) :
    ∀ s : State, s.request_sent = true →
      (runCycles sr uris s cs).1.request_sent = true ∧
      (runCycles sr uris s cs).2.map List.length = List.replicate cs.length 0 := by
  induction cs with
  | nil => intro s h; simpa [runCycles] using h
  | cons c cs ih =>
    intro s h
    have hr := run_of_sent sr uris s c h
    have ihr := ih (run sr uris s c).state hr.1
    simp [runCycles, hr.2, ihr.1, ihr.2, List.replicate_succ]

/-- Specification-side characterization of the request trace (stated from
the spec's words as amended): given the counter at the start and the frame
counts of the successive (control-connected) cycles, the request fires
exactly once, on the first cycle at whose start the 64-bit counter already
exceeds `2 * sample_rate`, and on no other cycle; `fireVec` returns the
per-cycle request counts. -/
def fireVec (sr : ℚ) : Nat → List Nat → List Nat
  | _, [] => []
  | cnt, n :: rest =>
    if 2 * sr < (cnt : ℚ) then 1 :: List.replicate rest.length 0
    else 0 :: fireVec sr ((cnt + n) % 2 ^ 64) rest

/-- The per-cycle request counts of `runCycles` match `fireVec`, for any
start state with the latch clear and any cycles whose control port is
connected. -/
theorem runCycles_eq_fireVec (sr : ℚ) (uris : ReqValURIs) :
    ∀ (cs : List CycleInput) (s : State), s.request_sent = false →
      (∀ c ∈ cs, c.control.isSome) →
      (runCycles sr uris s cs).2.map List.length =
        fireVec sr s.sample_cnt (cs.map (fun c => c.n_samples)) := by
  intro cs
  induction cs with
  | nil => intro s _ _; simp [runCycles, fireVec]
  | cons c cs ih =>
    intro s hs hc
    obtain ⟨evs, hevs⟩ := Option.isSome_iff_exists.mp (hc c (List.mem_cons_self c cs))
    by_cases hg : 2 * sr < (s.sample_cnt : ℚ)
    · have hrun : (run sr uris s c).state.request_sent = true ∧
          (run sr uris s c).requests.length = 1 := by
        simp [run, hevs, hs, hg]
      have hrest := runCycles_of_sent sr uris cs (run sr uris s c).state hrun.1
      simp [runCycles, fireVec, hg, hrun.2, hrest.2]
    · have hstate : (run sr uris s c).state =
          { s with sample_cnt := (s.sample_cnt + c.n_samples) % 2 ^ 64 } := by
        simp [run, hevs, hs, hg]
      have hreq : (run sr uris s c).requests = [] := by
        simp [run, hevs, hs, hg]
      have ihr := ih { s with sample_cnt := (s.sample_cnt + c.n_samples) % 2 ^ 64 }
        (by simpa using hs) (fun d hd => hc d (List.mem_cons_of_mem c hd))
      calc (runCycles sr uris s (c :: cs)).2.map List.length
          = 0 :: (runCycles sr uris (run sr uris s c).state cs).2.map List.length := by
            simp [runCycles, hreq]
        _ = 0 :: fireVec sr ((s.sample_cnt + c.n_samples) % 2 ^ 64)
              (cs.map (fun c => c.n_samples)) := by
            rw [hstate]; exact congrArg _ (by simpa using ihr)
        _ = fireVec sr s.sample_cnt ((c :: cs).map (fun c => c.n_samples)) := by
            simp [fireVec, hg]

/-- From a latch-clear state, the whole run issues at most one request. -/
theorem requestTotal_le_one (sr : ℚ) (uris : ReqValURIs) :
    ∀ (cs : List CycleInput) (s : State), s.request_sent = false →
      requestTotal sr uris s cs ≤ 1 := by
  intro cs
  induction cs with
  | nil => intro s _; simp [requestTotal, runCycles]
  | cons c cs ih =>
    intro s hs
    rcases hc : c.control with _ | evs
    · have hstate : (run sr uris s c).state = s := by simp [run, hc]
      have hreq : (run sr uris s c).requests = [] := by simp [run, hc]
      simpa [requestTotal, runCycles, hstate, hreq] using ih s hs
    · by_cases hg : 2 * sr < (s.sample_cnt : ℚ)
      · have hsent : (run sr uris s c).state.request_sent = true := by
          simp [run, hc, hs, hg]
        have hlen : (run sr uris s c).requests.length = 1 := by
          simp [run, hc, hs, hg]
        have hrest := runCycles_of_sent sr uris cs (run sr uris s c).state hsent
        simp [requestTotal, runCycles, hlen, hrest.2]
      · have hsent : (run sr uris s c).state.request_sent = false := by
          simp [run, hc, hs, hg]
        have hlen : (run sr uris s c).requests = [] := by
          simp [run, hc, hs, hg]
        simpa [requestTotal, runCycles, hlen] using
          ih (run sr uris s c).state hsent

/-- C1: For every plugin instance and every sequence of run cycles, the
host's value-request capability is invoked at most once: `request_sent`
is created `false` by `instantiate`; a cycle that starts with it `true`
keeps it `true` and issues no request; from a `false` start the flag
becomes `true` in a cycle exactly when that cycle issues a request; and
the total number of requests over any sequence of cycles from a fresh
state is at most one. -/
theorem claim_c1_request_at_most_once :
    (∀ (rate : ℚ) (fs : List Feature) (rv : ReqVal),
        instantiate rate fs = some rv → rv.st.request_sent = false) ∧
    (∀ (sr : ℚ) (uris : ReqValURIs) (s : State) (c : CycleInput),
        s.request_sent = true →
        (run sr uris s c).state.request_sent = true ∧ (run sr uris s c).requests = []) ∧
    (∀ (sr : ℚ) (uris : ReqValURIs) (s : State) (c : CycleInput),
        s.request_sent = false →
        ((run sr uris s c).state.request_sent = true ↔
          (run sr uris s c).requests.length = 1)) ∧
    (∀ (sr : ℚ) (uris : ReqValURIs) (s : State) (cs : List CycleInput),
        s.request_sent = false → requestTotal sr uris s cs ≤ 1) := by
  refine ⟨?_, ?_, ?_, ?_⟩
  · intro rate fs rv h
    by_cases h1 : featureData fs LV2_UI__requestValue = true <;>
      by_cases h2 : featureData fs LV2_URID__map = true <;>
      simp [instantiate, h1, h2] at h
    subst h
    rfl
  · intro sr uris s c h
    exact run_of_sent sr uris s c h
  · intro sr uris s c hs
    unfold run
    cases hc : c.control with
    | none => simp [hs]
    | some evs =>
      by_cases hg : 2 * sr < (s.sample_cnt : ℚ) <;> simp [hs, hg]
  · intro sr uris s cs hs
    exact requestTotal_le_one sr uris cs s hs

/-- Witness for C1 at concrete inputs: a fresh instance from `fsBoth` has
the latch clear, and four two-second cycles at rate 48000 issue at most
one request in total. -/
theorem claim_c1_witness :
    rv0.st.request_sent = false ∧
    requestTotal 48000 uris0 initState
      [mkCycle 96000, mkCycle 96000, mkCycle 96000, mkCycle 96000] ≤ 1 :=
  ⟨claim_c1_request_at_most_once.1 48000 fsBoth rv0 (by rfl),
   claim_c1_request_at_most_once.2.2.2 48000 uris0 initState
     [mkCycle 96000, mkCycle 96000, mkCycle 96000, mkCycle 96000] rfl⟩

/-- C2 (amended): over any control-connected cycles from a fresh state,
the request fires exactly once, on the first cycle at whose *start* the
64-bit elapsed-sample counter already exceeds `2 * sample_rate` — i.e.
one cycle after the cumulative count crosses the threshold — and on no
other cycle (`fireVec`).  Concretely, at rate 48000 with cycles of
96000 and 1 samples (totaling 96001) and no control events, no request
fires at all; only a further cycle then fires it, exactly once. -/
theorem claim_c2_request_threshold :
    (∀ (sr : ℚ) (uris : ReqValURIs) (s : State) (cs : List CycleInput),
        s.request_sent = false → (∀ c ∈ cs, c.control.isSome) →
        (runCycles sr uris s cs).2.map List.length =
          fireVec sr s.sample_cnt (cs.map (fun c => c.n_samples))) ∧
    (∀ uris : ReqValURIs,
        (runCycles 48000 uris initState [mkCycle 96000, mkCycle 1]).2.map
          List.length = [0, 0]) ∧
    (∀ uris : ReqValURIs,
        (runCycles 48000 uris initState
            [mkCycle 96000, mkCycle 1, mkCycle 1]).2.map List.length = [0, 0, 1]) := by
  refine ⟨?_, ?_, ?_⟩
  · intro sr uris s cs hs hc
    exact runCycles_eq_fireVec sr uris cs s hs hc
  · intro uris
    norm_num [runCycles, run, mkCycle, runEvents, initState]
  · intro uris
    norm_num [runCycles, run, mkCycle, runEvents, initState]

/-- Witness for C2 at a concrete input: the fresh state has the latch
clear, all three cycles are control-connected, and the per-cycle request
counts match `fireVec`. -/
theorem claim_c2_witness :
    initState.request_sent = false ∧
    (∀ c ∈ [mkCycle 96000, mkCycle 1, mkCycle 1], c.control.isSome) ∧
    (runCycles 48000 uris0 initState [mkCycle 96000, mkCycle 1, mkCycle 1]).2.map
        List.length =
      fireVec 48000 initState.sample_cnt
        ([mkCycle 96000, mkCycle 1, mkCycle 1].map (fun c => c.n_samples)) :=
  ⟨rfl, by simp [mkCycle],
   claim_c2_request_threshold.1 48000 uris0 initState
     [mkCycle 96000, mkCycle 1, mkCycle 1] rfl (by simp [mkCycle])⟩

/-- Counterexample to C2 as stated: at rate 48000, delivering cycles of
96000 and 1 samples (totaling 96001, no control events) issues zero
requests — not one — because `run` tests `sample_cnt > 2 * sample_rate`
*before* adding the cycle's `n_samples`, so the cycle that crosses the
96000-sample boundary never fires. -/
theorem claim_c2_counterexample :
    requestTotal 48000 uris0 initState [mkCycle 96000, mkCycle 1] = 0 ∧
    (0 : Nat) ≠ 1 := by
  constructor
  · norm_num [requestTotal, runCycles, run, mkCycle, runEvents, initState]
  · decide

/-- C5 (amended): on a cycle whose control port is connected, the
elapsed-sample counter is updated exactly once, to
`(sample_cnt + n_samples) % 2 ^ 64` (64-bit wrap-around); on a cycle
whose control port is NULL, `run` returns right after the audio
pass-through: the state (including the counter) is unchanged, no event is
dispatched and no request is issued. -/
theorem claim_c5_counter_update (sr : ℚ) (uris : ReqValURIs) (s : State) (c : CycleInput) :
    (c.control.isSome →
      (run sr uris s c).state.sample_cnt = (s.sample_cnt + c.n_samples) % 2 ^ 64) ∧
    (c.control = none →
      (run sr uris s c).state = s ∧ (run sr uris s c).handed = [] ∧
      (run sr uris s c).requests = []) := by
  constructor
  · intro h
    obtain ⟨evs, hevs⟩ := Option.isSome_iff_exists.mp h
    by_cases hg : s.request_sent = false ∧ 2 * sr < (s.sample_cnt : ℚ) <;>
      simp [run, hevs, hg]
  · intro h
    simp [run, h]

/-- Witness for C5 at concrete inputs: a connected 7-frame cycle advances
the counter from 0 to 7 mod `2 ^ 64`, and a NULL-control cycle leaves the
fresh state unchanged. -/
theorem claim_c5_witness :
    (mkCycle 7).control.isSome ∧
    (run 48000 uris0 initState (mkCycle 7)).state.sample_cnt =
      (initState.sample_cnt + (mkCycle 7).n_samples) % 2 ^ 64 ∧
    noCtrlCycle.control = none ∧
    (run 48000 uris0 initState noCtrlCycle).state = initState :=
  ⟨rfl,
   (claim_c5_counter_update 48000 uris0 initState (mkCycle 7)).1 rfl,
   rfl,
   ((claim_c5_counter_update 48000 uris0 initState noCtrlCycle).2 rfl).1⟩

/-- Counterexample to C5 as stated: on a cycle whose control sequence is
NULL, `run` returns early and the counter is *not* advanced by
`n_samples` — a 5-frame NULL-control cycle leaves the counter at 0
instead of 5. -/
theorem claim_c5_counterexample :
    ¬ ((run 48000 uris0 initState noCtrlCycle).state.sample_cnt =
        initState.sample_cnt + noCtrlCycle.n_samples) := by
  simp [run, noCtrlCycle, initState]

/-- C3: for every well-formed set object — its `patch:property` member
present, typed `atom:URID` and carrying `m_bool_test`, and its
`patch:value` member present, typed `atom:Bool` with body encoding the
boolean `b` (0 or 1) — `parse_property` succeeds and reports exactly `b`,
for both `true` and `false`. -/
theorem claim_c3_wellformed_set_decoded (uris : ReqValURIs) (obj : AtomObject)
    (property val : Atom) (b : Bool)
    (hp : lv2_atom_object_get obj uris.patch_property = some property)
    (hpt : property.atype = uris.atom_URID)
    (hpb : property.body = uris.m_bool_test)
    (hv : lv2_atom_object_get obj uris.patch_value = some val)
    (hvt : val.atype = uris.atom_Bool)
    (hvb : val.body = if b then 1 else 0) :
    parse_property uris obj = .ok b := by
  cases b <;> simp [parse_property, hp, hpt, hpb, hv, hvt, hvb]

/-- Witness for C3: the concrete well-formed objects `objOkTrue` and
`objOkFalse` decode to `true` and `false` under `uris0`. -/
theorem claim_c3_witness :
    parse_property uris0 objOkTrue = .ok true ∧
    parse_property uris0 objOkFalse = .ok false :=
  ⟨claim_c3_wellformed_set_decoded uris0 objOkTrue ⟨3, 9⟩ ⟨5, 1⟩ true
     (by decide) rfl rfl (by decide) rfl rfl,
   claim_c3_wellformed_set_decoded uris0 objOkFalse ⟨3, 9⟩ ⟨5, 0⟩ false
     (by decide) rfl rfl (by decide) rfl rfl⟩

/-- C4: `parse_property` classifies every malformed set object —
`NoBody` when the property member is absent, `NonIdentifierProperty` when
its declared type is not `atom:URID`, `NoValue` when the value member is
absent, `TypeMismatch` when the property is `m_bool_test` but the value
is not typed `atom:Bool`, `UnknownProperty` when the property identifier
is unrecognized; failures are only logged: the state after a cycle does
not depend on the events at all, and the dispatcher continues past any
event to the end of the sequence (it distributes over append). -/
theorem claim_c4_classified_failures (uris : ReqValURIs) (obj : AtomObject) :
    (lv2_atom_object_get obj uris.patch_property = none →
      parse_property uris obj = .err .NoBody) ∧
    (∀ property, lv2_atom_object_get obj uris.patch_property = some property →
      property.atype ≠ uris.atom_URID →
      parse_property uris obj = .err .NonIdentifierProperty) ∧
    (∀ property, lv2_atom_object_get obj uris.patch_property = some property →
      property.atype = uris.atom_URID →
      lv2_atom_object_get obj uris.patch_value = none →
      parse_property uris obj = .err .NoValue) ∧
    (∀ property val, lv2_atom_object_get obj uris.patch_property = some property →
      property.atype = uris.atom_URID →
      lv2_atom_object_get obj uris.patch_value = some val →
      property.body = uris.m_bool_test → val.atype ≠ uris.atom_Bool →
      parse_property uris obj = .err .TypeMismatch) ∧
    (∀ property val, lv2_atom_object_get obj uris.patch_property = some property →
      property.atype = uris.atom_URID →
      lv2_atom_object_get obj uris.patch_value = some val →
      property.body ≠ uris.m_bool_test →
      parse_property uris obj = .err .UnknownProperty) ∧
    (∀ (sr : ℚ) (s : State) (c1 c2 : CycleInput), c1.n_samples = c2.n_samples →
      c1.control.isSome → c2.control.isSome →
      (run sr uris s c1).state = (run sr uris s c2).state) ∧
    (∀ evs1 evs2 : List Event,
      runEvents uris (evs1 ++ evs2) = runEvents uris evs1 ++ runEvents uris evs2) := by
  refine ⟨?_, ?_, ?_, ?_, ?_, ?_, ?_⟩
  · intro hp
    simp [parse_property, hp]
  · intro property hp hpt
    simp [parse_property, hp, hpt]
  · intro property hp hpt hv
    simp [parse_property, hp, hpt, hv]
  · intro property val hp hpt hv hpb hvt
    simp [parse_property, hp, hpt, hv, hpb, hvt]
  · intro property val hp hpt hv hpb
    simp [parse_property, hp, hpt, hv, hpb]
  · intro sr s c1 c2 hn h1 h2
    obtain ⟨evs1, hevs1⟩ := Option.isSome_iff_exists.mp h1
    obtain ⟨evs2, hevs2⟩ := Option.isSome_iff_exists.mp h2
    by_cases hg : s.request_sent = false ∧ 2 * sr < (s.sample_cnt : ℚ) <;>
      simp [run, hevs1, hevs2, hg, hn]
  · intro evs1 evs2
    induction evs1 with
    | nil => simp [runEvents]
    | cons ev rest ih =>
      by_cases h1 : ev.etype = uris.atom_Object
      · by_cases h2 : ev.eobj.otype = uris.patch_Set <;>
          simp [runEvents, h1, h2, ih]
      · simp [runEvents, h1, ih]

/-- Witness for C4: each classified failure at a concrete malformed
object under `uris0`; state independence at two concrete single-event
cycles; dispatcher continuation across a concrete append. -/
theorem claim_c4_witness :
    parse_property uris0 objNoProp = .err .NoBody ∧
    parse_property uris0 objNonUrid = .err .NonIdentifierProperty ∧
    parse_property uris0 objNoValue = .err .NoValue ∧
    parse_property uris0 objBadType = .err .TypeMismatch ∧
    parse_property uris0 objUnknown = .err .UnknownProperty ∧
    (run 48000 uris0 initState
        { n_samples := 64, control := some [⟨2, objBadType⟩], p_in := [], p_out := [],
          aliased := true }).state =
      (run 48000 uris0 initState
        { n_samples := 64, control := some [], p_in := [], p_out := [],
          aliased := true }).state ∧
    runEvents uris0 ([⟨2, objBadType⟩] ++ [⟨2, objOkTrue⟩]) =
      runEvents uris0 [⟨2, objBadType⟩] ++ runEvents uris0 [⟨2, objOkTrue⟩] :=
  ⟨(claim_c4_classified_failures uris0 objNoProp).1 (by decide),
   (claim_c4_classified_failures uris0 objNonUrid).2.1 ⟨4, 9⟩ (by decide) (by decide),
   (claim_c4_classified_failures uris0 objNoValue).2.2.1 ⟨3, 9⟩ (by decide) rfl (by decide),
   (claim_c4_classified_failures uris0 objBadType).2.2.2.1 ⟨3, 9⟩ ⟨4, 1⟩ (by decide) rfl
     (by decide) rfl (by decide),
   (claim_c4_classified_failures uris0 objUnknown).2.2.2.2.1 ⟨3, 10⟩ ⟨5, 1⟩ (by decide) rfl
     (by decide) (by decide),
   (claim_c4_classified_failures uris0 objBadType).2.2.2.2.2.1 48000 initState
     { n_samples := 64, control := some [⟨2, objBadType⟩], p_in := [], p_out := [],
       aliased := true }
     { n_samples := 64, control := some [], p_in := [], p_out := [], aliased := true }
     rfl rfl rfl,
   (claim_c4_classified_failures uris0 objBadType).2.2.2.2.2.2
     [⟨2, objBadType⟩] [⟨2, objOkTrue⟩]⟩

/-- C6: the dispatcher hands to the decoder exactly the events whose body
type is `atom:Object` and whose object type is `patch:Set`, in the
sequence's stored order (`filterMap` over the sequence); the objects
handed are a sublist of the events' object views (no reordering); and a
NULL control sequence makes the dispatcher a no-op.  No event terminates
the loop early: the `filterMap` form visits the whole sequence (see also
the append distribution proved with C4). -/
theorem claim_c6_dispatcher_filter (uris : ReqValURIs) :
    (∀ evs : List Event,
      runEvents uris evs = evs.filterMap (fun ev =>
        if ev.etype = uris.atom_Object ∧ ev.eobj.otype = uris.patch_Set then
          some ev.eobj
        else none)) ∧
    (∀ evs : List Event, (runEvents uris evs).Sublist (evs.map Event.eobj)) ∧
    (∀ (sr : ℚ) (s : State) (c : CycleInput), c.control = none →
      (run sr uris s c).handed = []) := by
  refine ⟨?_, ?_, ?_⟩
  · intro evs
    induction evs with
    | nil => simp [runEvents]
    | cons ev rest ih =>
      by_cases h1 : ev.etype = uris.atom_Object
      · by_cases h2 : ev.eobj.otype = uris.patch_Set <;>
          simp [runEvents, h1, h2, ih]
      · simp [runEvents, h1, ih]
  · intro evs
    induction evs with
    | nil => simp [runEvents]
    | cons ev rest ih =>
      by_cases h1 : ev.etype = uris.atom_Object
      · by_cases h2 : ev.eobj.otype = uris.patch_Set
        · simpa [runEvents, h1, h2] using List.Sublist.cons₂ ev.eobj ih
        · simpa [runEvents, h1, h2] using List.Sublist.cons ev.eobj ih
      · simpa [runEvents, h1] using List.Sublist.cons ev.eobj ih
  · intro sr s c h
    simp [run, h]

/-- Four events under `uris0`: a Float-typed event, an Object/Set event,
an Object event of another object type, and a Blank-typed event whose
object view carries the Set tag. -/
def evList : List Event :=
  [⟨4, objOkTrue⟩, ⟨2, objOkTrue⟩, ⟨2, ⟨5, []⟩⟩, ⟨1, objOkTrue⟩]

/-- Witness for C6 at a concrete input: of the four `evList` events only
the Object/Set one is handed to the decoder; a NULL-control cycle
dispatches nothing. -/
theorem claim_c6_witness :
    runEvents uris0 evList =
      evList.filterMap (fun ev =>
        if ev.etype = uris0.atom_Object ∧ ev.eobj.otype = uris0.patch_Set then
          some ev.eobj
        else none) ∧
    (run 48000 uris0 initState noCtrlCycle).handed = [] :=
  ⟨(claim_c6_dispatcher_filter uris0).1 evList,
   (claim_c6_dispatcher_filter uris0).2.2 48000 initState noCtrlCycle rfl⟩

/-- C7: `instantiate` yields no instance whenever the `urid:map` service
or the `ui:requestValue` capability is missing (its data left NULL by the
feature scan), and succeeds whenever both are present; the log sink is
optional — the instance records whether one was found (`log_present`,
false meaning the logger's console fallback), and its absence never
causes failure. -/
theorem claim_c7_instantiate_requirements (rate : ℚ) (fs : List Feature) :
    (featureData fs LV2_URID__map = false ∨ featureData fs LV2_UI__requestValue = false →
      instantiate rate fs = none) ∧
    (featureData fs LV2_URID__map = true → featureData fs LV2_UI__requestValue = true →
      instantiate rate fs = some
        { log_present := featureData fs LV2_LOG__log
          sample_rate := rate
          st := initState }) ∧
    (∀ uri, (∀ f ∈ fs, f.uri ≠ uri) → featureData fs uri = false) := by
  refine ⟨?_, ?_, ?_⟩
  · intro h
    rcases h with h | h <;> simp [instantiate, h]
  · intro h1 h2
    simp [instantiate, h1, h2, initState]
  · intro uri h
    induction fs with
    | nil => rfl
    | cons f fs ih =>
      have hf : f.uri ≠ uri := h f (List.mem_cons_self f fs)
      have hr := ih (fun g hg => h g (List.mem_cons_of_mem f hg))
      simpa [featureData, hf] using hr

/-- Witness for C7 at concrete feature lists: instantiation fails without
`urid:map`, fails without `ui:requestValue`, and succeeds with both but
no log sink, recording the console fallback (`log_present = false`). -/
theorem claim_c7_witness :
    instantiate 48000 fsNoMap = none ∧
    instantiate 48000 fsNoReq = none ∧
    featureData fsNoMap LV2_URID__map = false ∧
    instantiate 48000 fsBoth =
      some { log_present := false, sample_rate := 48000, st := initState } :=
  ⟨(claim_c7_instantiate_requirements 48000 fsNoMap).1 (Or.inl (by decide)),
   (claim_c7_instantiate_requirements 48000 fsNoReq).1 (Or.inr (by decide)),
   (claim_c7_instantiate_requirements 48000 fsNoMap).2.2 LV2_URID__map (by decide),
   by
     have h := (claim_c7_instantiate_requirements 48000 fsBoth).2.1 (by decide) (by decide)
     rw [show featureData fsBoth LV2_LOG__log = false from by decide] at h
     exact h⟩

/-- C8: when the transition fires (latch clear, counter beyond the
threshold, control connected), the cycle sets the state to requested and
issues exactly one request, carrying the boolean-test property URID, the
Bool type URID, and the dialog-message capability whose message is the
fixed static text "FOO BAR!", whose delivery-mode flag is fire-and-forget
(`requires_return = false`), and whose release callback is the no-op
`non_free` (it frees nothing). -/
theorem claim_c8_request_payload (sr : ℚ) (uris : ReqValURIs) (s : State) (c : CycleInput)
    (evs : List Event) (hc : c.control = some evs) (hs : s.request_sent = false)
    (hg : 2 * sr < (s.sample_cnt : ℚ)) (hf : s.dialog_message.free_msg = non_free) :
    (run sr uris s c).state.request_sent = true ∧
    (run sr uris s c).requests =
      [{ property := uris.m_bool_test
         ptype := uris.atom_Bool
         features := [(LV2_DIALOGMESSAGE_URI,
           { free_msg := non_free, msg := some "FOO BAR!", requires_return := false })] }] ∧
    (∀ m : String, non_free m = []) := by
  refine ⟨?_, ?_, fun m => rfl⟩
  · simp [run, hc, hs, hg]
  · simp [run, hc, hs, hg, hf]

/-- Witness for C8: with rate 1 and counter 3 (`3 > 2`), a cycle fires
and passes exactly the payload above. -/
theorem claim_c8_witness :
    (run 1 uris0 { initState with sample_cnt := 3 } (mkCycle 0)).state.request_sent = true ∧
    (run 1 uris0 { initState with sample_cnt := 3 } (mkCycle 0)).requests =
      [{ property := uris0.m_bool_test
         ptype := uris0.atom_Bool
         features := [(LV2_DIALOGMESSAGE_URI,
           { free_msg := non_free, msg := some "FOO BAR!", requires_return := false })] }] :=
  have h := claim_c8_request_payload 1 uris0 { initState with sample_cnt := 3 }
    (mkCycle 0) [] rfl rfl (by norm_num) rfl
  ⟨h.1, h.2.1⟩

/-- The output buffer produced by `run` (lines 240-242): the `memcpy`
when the buffers are distinct storage, the unchanged buffer when
aliased. -/
theorem run_out (sr : ℚ) (uris : ReqValURIs) (s : State) (c : CycleInput) :
    (run sr uris s c).out =
      if c.aliased then c.p_out
      else c.p_in.take c.n_samples ++ c.p_out.drop c.n_samples := by
  rcases hc : c.control with _ | evs
  · by_cases ha : c.aliased <;> simp [run, hc, ha]
  · by_cases hg : s.request_sent = false ∧ 2 * sr < (s.sample_cnt : ℚ) <;>
      by_cases ha : c.aliased <;> simp [run, hc, hg, ha]

/-- C9: when the output buffer is distinct storage from the input, the
first `n_samples` samples of the output after the cycle equal the input's
(the `memcpy`), and samples past `n_samples` are untouched — no other
transformation; when the buffers alias, the buffer is left untouched. -/
theorem claim_c9_audio_passthrough (sr : ℚ) (uris : ReqValURIs) (s : State) (c : CycleInput) :
    (c.aliased = false → c.n_samples ≤ c.p_in.length →
      (run sr uris s c).out.take c.n_samples = c.p_in.take c.n_samples ∧
      (run sr uris s c).out.drop c.n_samples = c.p_out.drop c.n_samples) ∧
    (c.aliased = true → (run sr uris s c).out = c.p_out) := by
  have hout := run_out sr uris s c
  constructor
  · intro ha hn
    rw [hout, if_neg (by simp [ha])]
    have hlen : (c.p_in.take c.n_samples).length = c.n_samples := by simp [hn]
    exact ⟨List.take_left' hlen, List.drop_left' hlen⟩
  · intro ha
    rw [hout, if_pos ha]

/-- Witness for C9 at concrete inputs, including `n_samples = 4096`: a
non-aliased cycle copies the 4096 input samples and leaves the tail of
the output buffer; an aliased cycle returns the output buffer unchanged. -/
theorem claim_c9_witness :
    ((run 48000 uris0 initState
        { n_samples := 4096, control := some [], p_in := List.replicate 4096 7,
          p_out := List.replicate 5000 0, aliased := false }).out.take 4096 =
      (List.replicate 4096 (7 : Nat)).take 4096 ∧
     (run 48000 uris0 initState
        { n_samples := 4096, control := some [], p_in := List.replicate 4096 7,
          p_out := List.replicate 5000 0, aliased := false }).out.drop 4096 =
      (List.replicate 5000 (0 : Nat)).drop 4096) ∧
    (run 48000 uris0 initState
        { n_samples := 3, control := some [], p_in := [1, 2, 3],
          p_out := [4, 5, 6], aliased := true }).out = [4, 5, 6] :=
  ⟨(claim_c9_audio_passthrough 48000 uris0 initState
      { n_samples := 4096, control := some [], p_in := List.replicate 4096 7,
        p_out := List.replicate 5000 0, aliased := false }).1 rfl
     (by simp only [List.length_replicate]; exact le_rfl),
   (claim_c9_audio_passthrough 48000 uris0 initState
      { n_samples := 3, control := some [], p_in := [1, 2, 3],
        p_out := [4, 5, 6], aliased := true }).2 rfl⟩

/-- C10: `map_uris` resolves `atom:Blank` as well; since distinct URIs
map to distinct URIDs (`atom:Blank ≠ atom:Object` under the naming
service), an event whose body type is the Blank URID is skipped by the
dispatcher and never handed to the decoder — even if its object view
carries the `patch:Set` object type — like every other non-Object
event. -/
theorem claim_c10_blank_skipped (m : String → Nat)
    (hne : m LV2_ATOM__Blank ≠ m LV2_ATOM__Object) (ev : Event) (evs : List Event)
    (hb : ev.etype = (map_uris m).atom_Blank) :
    runEvents (map_uris m) (ev :: evs) = runEvents (map_uris m) evs ∧
    runEvents (map_uris m) [ev] = [] := by
  have h1 : ev.etype ≠ (map_uris m).atom_Object := by
    rw [hb]; exact hne
  exact ⟨by simp [runEvents, h1], by simp [runEvents, h1]⟩

/-- A concrete naming service distinguishing `atom:Blank` from
`atom:Object`; every other name collapses to 1, so under it the Blank
URID (1) even coincides with the `patch:Set` URID (1). -/
def blankMap : String → Nat := fun s => if s = LV2_ATOM__Object then 2 else 1

/-- Witness for C10: under `blankMap`, a Blank-typed event whose object
view carries the `patch:Set` object type is dropped by the dispatcher. -/
theorem claim_c10_witness :
    blankMap LV2_ATOM__Blank ≠ blankMap LV2_ATOM__Object ∧
    runEvents (map_uris blankMap) [⟨1, ⟨1, [(7, ⟨3, 9⟩)]⟩⟩] = [] :=
  ⟨by decide,
   (claim_c10_blank_skipped blankMap (by decide) ⟨1, ⟨1, [(7, ⟨3, 9⟩)]⟩⟩ [] (by decide)).2⟩

end ReqValLv2
